import Mathlib

/-!
Shallow embedding of the `gfx_texture` crate.  The repository contains two
lineages of the same component: `src/texture.rs` (an older gfx API, embedded
below in namespace `TexRs`) and `src/lib.rs` (a newer gfx API, embedded in
namespace `LibRs`).  GPU factories and encoders are modelled as oracles that
either accept or refuse each kind of device call, and every embedded
operation returns the list of device calls it issued, so that format
descriptors, uploaded bytes and mipmap requests are observable in the
theorems.  Machine integers are `Nat` with an explicit `% 2 ^ 16` where the
code truncates `u32` dimensions to `u16`.
-/

/-- Truncating cast from `u32` to `u16`, as performed by `as u16` in the
source. -/
def u16cast (n : Nat) : Nat := n % 65536

/-- A decoded RGBA image: dimensions (`u32`) plus its raw byte buffer, as
exposed by `image::RgbaImage` (the method `dimensions()` and the deref to a
byte slice). -/
structure RgbaImage where
  width : Nat
  height : Nat
  data : List Nat
deriving DecidableEq

/-- Modelled from the spec: the `TextureSettings` type of the external
`texture` crate (it is not part of `src/`): four independent boolean flags
(section 4.1 of the spec), plus the magnification filter that `src/lib.rs`
reads via `get_mag` (modelled as a boolean: `true` stands for
`Filter::Linear`, `false` for `Filter::Nearest`). -/
structure TextureSettings where
  flip_vertical : Bool
  convert_gamma : Bool
  compress : Bool
  generate_mipmap : Bool
  mag_linear : Bool
deriving DecidableEq

/-- Modelled from the spec: `TextureSettings::new()` defaults every flag to
off; the external crate defaults the filter to `Filter::Linear`. -/
def TextureSettings.new : TextureSettings :=
  { flip_vertical := false, convert_gamma := false, compress := false,
    generate_mipmap := false, mag_linear := true }

namespace TexRs

/-- Pixel formats of the old gfx API used by `src/texture.rs`:
`gfx::tex::RGBA8` (linear) and `gfx::tex::Format::SRGB8_A8` (sRGB). -/
inductive Format where
  | RGBA8
  | SRGB8_A8
deriving DecidableEq

/-- The `gfx::tex::TextureInfo` descriptor built by `src/texture.rs`
(`kind` is `Kind::D2` on every embedded path and is omitted). -/
structure TextureInfo where
  width : Nat
  height : Nat
  depth : Nat
  levels : Nat
  format : Format
deriving DecidableEq

/-- A texture handle of the old API carries its `TextureInfo`
(queried through `handle.get_info()`); the `Texture` struct of
`src/texture.rs` wraps exactly one handle. -/
structure Texture where
  handle : TextureInfo
deriving DecidableEq

/-- Device calls `src/texture.rs` can issue to the gfx factory. -/
inductive Call where
  | create_texture_rgba8 (width height : Nat)
  | create_texture_static (info : TextureInfo) (data : List Nat)
  | update_texture (info : TextureInfo) (data : List Nat)
  | generate_mipmap
deriving DecidableEq

/-- Recognizer for the mipmap-generation device call; it evaluates on the
constructor head, so call counts can be computed even when the payloads of
the other calls are symbolic. -/
def isMipmapCall : Call → Bool
  | Call.generate_mipmap => true
  | _ => false

/-- Oracle for the gfx factory of `src/texture.rs`: whether texture-creation
calls succeed and whether `update_texture` calls succeed. -/
structure Factory where
  createOk : Bool
  updateOk : Bool
deriving DecidableEq

/-- Opaque `gfx::tex::TextureError`, the typed device error returned by
`Texture::empty` in `src/texture.rs`. -/
inductive GfxTexError where
  | err
deriving DecidableEq

/-- The `TextureError` of the crate root used by the `Rgba8Texture` impl in
`src/texture.rs`; only its `FactoryError` variant is used, carrying the
device error formatted with `{:?}` (modelled as an opaque message). -/
inductive TextureError where
  | FactoryError (msg : String)
deriving DecidableEq

/-- Info of the handle returned by `factory.create_texture_rgba8(w, h)`: a
one-level linear RGBA8 2D texture of the given extent. -/
def rgba8Info (width height : Nat) : TextureInfo :=
  { width := width, height := height, depth := 1, levels := 1,
    format := Format.RGBA8 }

/-- `Texture::empty` (src/texture.rs lines 24-39): creates a 1 by 1 RGBA8
texture and uploads the single pixel `[0, 0, 0, 0]` through
`update_texture`; both device calls propagate their typed error via
`try!`. -/
def empty (factory : Factory) : Except GfxTexError (Texture × List Call) :=
  if factory.createOk then
    if factory.updateOk then
      Except.ok ({ handle := rgba8Info 1 1 },
        [Call.create_texture_rgba8 1 1,
         Call.update_texture (rgba8Info 1 1) [0, 0, 0, 0]])
    else Except.error GfxTexError.err
  else Except.error GfxTexError.err

/-- The `gfx::tex::TextureInfo` built by `Texture::from_image`
(src/texture.rs lines 68-78): dimensions truncated to `u16`, one mip
level, and the format chosen by `settings.get_convert_gamma()`. -/
def from_image_info (img : RgbaImage) (settings : TextureSettings) :
    TextureInfo :=
  { width := u16cast img.width, height := u16cast img.height,
    depth := 1, levels := 1,
    format := if settings.convert_gamma then Format.SRGB8_A8
              else Format.RGBA8 }

/-- `Texture::from_image` (src/texture.rs lines 61-86): builds the info,
calls `create_texture_static` and unwraps the result (`none` models the
panic on a device failure), then requests mipmap generation exactly when
the setting is on.  It returns `Texture` directly, not a `Result`. -/
def from_image (factory : Factory) (img : RgbaImage)
    (settings : TextureSettings) : Option (Texture × List Call) :=
  if factory.createOk then
    some ({ handle := from_image_info img settings },
      Call.create_texture_static (from_image_info img settings) img.data ::
        (if settings.generate_mipmap then [Call.generate_mipmap] else []))
  else none

/-- `Texture::from_path` (src/texture.rs lines 42-58): decodes through the
external decoder oracle (which already yields RGBA, covering the
`DynamicImage` conversion); a decode failure is mapped through
`|e| e.to_string()` -- the message of the decoder, with nothing added --
and returned as `Err`.  On success it defers to `from_image`; the outer
`Option` models the panic of `from_image` on a device failure. -/
def from_path (factory : Factory)
    (decode : String → Except String RgbaImage)
    (path : String) (settings : TextureSettings) :
    Option (Except String (Texture × List Call)) :=
  match decode path with
  | Except.error e => some (Except.error e)
  | Except.ok img =>
      (from_image factory img settings).map (fun r => Except.ok r)

/-- The pixel-expansion loop of `Texture::from_memory_alpha`
(src/texture.rs lines 100-104), written as structural recursion: each
alpha byte becomes the RGBA pixel `[255, 255, 255, alpha]`, in order. -/
def expandAlpha : List Nat → List Nat
  | [] => []
  | alpha :: rest => 255 :: 255 :: 255 :: alpha :: expandAlpha rest

/-- `Texture::from_memory_alpha` (src/texture.rs lines 89-118): each zero
requested dimension is replaced by 1, nonzero dimensions are truncated to
`u16`; an RGBA8 texture of that extent is created and the expanded pixels
are uploaded; both device results are unwrapped (`none` models the
panic).  Note that this function takes no settings. -/
def from_memory_alpha (factory : Factory) (buffer : List Nat)
    (width height : Nat) : Option (Texture × List Call) :=
  let width16 := if width = 0 then 1 else u16cast width
  let height16 := if height = 0 then 1 else u16cast height
  if factory.createOk then
    if factory.updateOk then
      some ({ handle := rgba8Info width16 height16 },
        [Call.create_texture_rgba8 width16 height16,
         Call.update_texture (rgba8Info width16 height16)
           (expandAlpha buffer)])
    else none
  else none

/-- `Texture::update` (src/texture.rs lines 120-129): re-uploads `image`
through `update_texture` using the stored info of the handle itself; the
handle is not modified; the device result is unwrapped (`none` models the
panic). -/
def update (factory : Factory) (tex : Texture) (image : RgbaImage) :
    Option (Texture × List Call) :=
  if factory.updateOk then
    some (tex, [Call.update_texture tex.handle image.data])
  else none

/-- `ImageSize::get_size` (src/texture.rs lines 183-189): reads width and
height from the info stored in the handle itself. -/
def get_size (tex : Texture) : Nat × Nat :=
  (tex.handle.width, tex.handle.height)

/-- The `gfx::tex::TextureInfo` built by `Rgba8Texture::from_memory`
(src/texture.rs lines 142-153): both dimensions truncated to `u16`, with
the same format choice as `from_image`. -/
def from_memory_info (size : Nat × Nat) (settings : TextureSettings) :
    TextureInfo :=
  { width := u16cast size.1, height := u16cast size.2,
    depth := 1, levels := 1,
    format := if settings.convert_gamma then Format.SRGB8_A8
              else Format.RGBA8 }

/-- `Rgba8Texture::from_memory` (src/texture.rs lines 136-164): like
`from_image` but over a raw buffer, and propagating the device failure as
the typed `TextureError::FactoryError` instead of unwrapping. -/
def from_memory (factory : Factory) (memory : List Nat) (size : Nat × Nat)
    (settings : TextureSettings) :
    Except TextureError (Texture × List Call) :=
  if factory.createOk then
    Except.ok ({ handle := from_memory_info size settings },
      Call.create_texture_static (from_memory_info size settings) memory ::
        (if settings.generate_mipmap then [Call.generate_mipmap] else []))
  else Except.error (TextureError.FactoryError ("create_texture_static failed"))

/-- `Rgba8Texture::update` (src/texture.rs lines 166-180): ignores the
requested size entirely (the `_size` argument) and re-uploads through the
stored info of the handle, propagating the device error as
`FactoryError`. -/
def rgba8_update (factory : Factory) (tex : Texture) (memory : List Nat)
    (_size : Nat × Nat) : Except TextureError (Texture × List Call) :=
  if factory.updateOk then
    Except.ok (tex, [Call.update_texture tex.handle memory])
  else Except.error (TextureError.FactoryError ("update_texture failed"))

end TexRs

namespace LibRs

/-- The `Flip` enum defined at the top of `src/lib.rs`. -/
inductive Flip where
  | None
  | Vertical
deriving DecidableEq

/-- gfx channel types distinguishing the linear (`Unorm`, from the typed
format `Rgba8`) and sRGB (`Srgb`, from `Srgba8`) views of the
`R8_G8_B8_A8` surface. -/
inductive ChannelType where
  | Unorm
  | Srgb
deriving DecidableEq

/-- Metadata of the raw texture created by `src/lib.rs`: `Kind::D2(w, h)`
with the given number of mip levels over the `R8_G8_B8_A8` surface. -/
structure Surface where
  width : Nat
  height : Nat
  levels : Nat
deriving DecidableEq

/-- The `Texture` struct of `src/lib.rs`; the sampler and shader view carry
no data relevant to the embedded claims beyond the device calls that made
them, so only the surface handle is kept. -/
structure Texture where
  surface : Surface
deriving DecidableEq

/-- Device calls `src/lib.rs` can issue to the factory or the encoder. -/
inductive Call where
  | create_texture_raw (width height levels : Nat) (channel : ChannelType)
      (data : List Nat)
  | view_texture_as_shader_resource (channel : ChannelType)
  | create_sampler (bilinear : Bool)
  | generate_mipmap
  | update_texture (xoffset yoffset width height : Nat)
      (channel : ChannelType) (data : List Nat)
deriving DecidableEq

/-- Recognizer for the mipmap-generation device call. -/
def isMipmapCall : Call → Bool
  | Call.generate_mipmap => true
  | _ => false

/-- Oracle for the factory of `src/lib.rs`: whether `create_texture_raw`
succeeds and whether `view_texture_as_shader_resource` succeeds. -/
structure Factory where
  createRawOk : Bool
  viewOk : Bool
deriving DecidableEq

/-- Opaque `gfx::CombinedError`. -/
inductive CombinedError where
  | err
deriving DecidableEq

/-- `CreateTexture::create` for `Texture` (src/lib.rs lines 128-192):
truncates the size to `u16` for `Kind::D2`, builds a one-level
`R8_G8_B8_A8` descriptor (the data slice count gives `levels = 1`),
creates the raw texture with the channel type of `Srgba8` (`Srgb`)
unconditionally, views it as a shader resource and creates the sampler
from `settings.get_mag()`.  The `_format` argument is ignored,
`convert_gamma` is never consulted, and no mipmap call is made. -/
def create (factory : Factory) (memory : List Nat) (size : Nat × Nat)
    (settings : TextureSettings) :
    Except CombinedError (Texture × List Call) :=
  let width := u16cast size.1
  let height := u16cast size.2
  if factory.createRawOk then
    if factory.viewOk then
      Except.ok
        ({ surface := { width := width, height := height, levels := 1 } },
         [Call.create_texture_raw width height 1 ChannelType.Srgb memory,
          Call.view_texture_as_shader_resource ChannelType.Srgb,
          Call.create_sampler settings.mag_linear])
    else Except.error CombinedError.err
  else Except.error CombinedError.err

/-- `Texture::empty` (src/lib.rs lines 40-46): `create` with the four bytes
`[0, 0, 0, 0]`, size `[1, 1]` and default settings. -/
def empty (factory : Factory) : Except CombinedError (Texture × List Call) :=
  create factory [0, 0, 0, 0] (1, 1) TextureSettings.new

/-- `Texture::from_image` (src/lib.rs lines 75-86): reads the dimensions of
the image and defers to `create`; device failures are returned as
`Err(CombinedError)`, not unwrapped. -/
def from_image (factory : Factory) (img : RgbaImage)
    (settings : TextureSettings) :
    Except CombinedError (Texture × List Call) :=
  create factory img.data (img.width, img.height) settings

/-- Helper splitting a flat byte buffer into rows of `rowLen` bytes; the
fuel argument is the number of rows. -/
def rowsAux : Nat → Nat → List Nat → List (List Nat)
  | 0, _, _ => []
  | fuel + 1, rowLen, l => l.take rowLen :: rowsAux fuel rowLen (l.drop rowLen)

/-- Modelled from the spec: the external vertical-flip transform
(`image::imageops::flip_vertical`) reverses the order of the pixel rows of
an RGBA buffer; each row is `4 * width` bytes. -/
def flip_vertical (img : RgbaImage) : RgbaImage :=
  { img with
    data := (rowsAux img.height (4 * img.width) img.data).reverse.flatten }

/-- `Texture::from_path` (src/lib.rs lines 48-73): decodes through the
external decoder oracle (which already yields RGBA), mapping a decode
failure through `|e| e.to_string()` -- the message of the decoder, with
nothing added; optionally flips vertically; then defers to `from_image`,
formatting its `CombinedError` with `{:?}` (the debug string of the opaque
error is modelled as a constant). -/
def from_path (factory : Factory)
    (decode : String → Except String RgbaImage)
    (path : String) (flip : Flip) (settings : TextureSettings) :
    Except String (Texture × List Call) :=
  match decode path with
  | Except.error e => Except.error e
  | Except.ok img =>
      let img2 := if flip = Flip.Vertical then flip_vertical img else img
      match from_image factory img2 settings with
      | Except.error _ => Except.error ("CombinedError")
      | Except.ok r => Except.ok r

/-- Modelled from the spec: `texture::ops::alpha_to_rgba8` of the external
`texture` crate expands each alpha byte into the opaque-white RGBA pixel
`[255, 255, 255, alpha]`, in order (the size argument of the original does
not affect the expansion and is omitted). -/
def alpha_to_rgba8 : List Nat → List Nat
  | [] => []
  | alpha :: rest => 255 :: 255 :: 255 :: alpha :: alpha_to_rgba8 rest

/-- `Texture::from_memory_alpha` (src/lib.rs lines 89-105): a zero width or
height short-circuits to `empty` (ignoring buffer and settings);
otherwise the alpha buffer is expanded to RGBA and handed to `create` at
the requested size. -/
def from_memory_alpha (factory : Factory) (buffer : List Nat)
    (width height : Nat) (settings : TextureSettings) :
    Except CombinedError (Texture × List Call) :=
  if width = 0 ∨ height = 0 then empty factory
  else create factory (alpha_to_rgba8 buffer) (width, height) settings

/-- Oracle for the gfx encoder of `src/lib.rs`. -/
structure Encoder where
  updateOk : Bool
deriving DecidableEq

/-- Opaque `gfx::UpdateError<[u16; 3]>`. -/
inductive UpdateError where
  | err
deriving DecidableEq

/-- `UpdateTexture::update` for `Texture` (src/lib.rs lines 196-233):
builds an `ImageInfoCommon` with the offset and size truncated to `u16`,
casts the bytes unchanged and issues `encoder.update_texture::<_, Rgba8>`
(the linear `Unorm` channel); `self` is not modified. -/
def update_texture (encoder : Encoder) (tex : Texture) (memory : List Nat)
    (offset size : Nat × Nat) :
    Except UpdateError (Texture × List Call) :=
  if encoder.updateOk then
    Except.ok (tex,
      [Call.update_texture (u16cast offset.1) (u16cast offset.2)
        (u16cast size.1) (u16cast size.2) ChannelType.Unorm memory])
  else Except.error UpdateError.err

/-- `Texture::update` (src/lib.rs lines 107-119): full-image update at
offset `[0, 0]` with the own dimensions of the image. -/
def update (encoder : Encoder) (tex : Texture) (img : RgbaImage) :
    Except UpdateError (Texture × List Call) :=
  update_texture encoder tex img.data (0, 0) (img.width, img.height)

/-- `ImageSize::get_size` (src/lib.rs lines 236-243): reads the dimensions
from the info of the surface handle itself (`kind.get_dimensions()`). -/
def get_size (tex : Texture) : Nat × Nat :=
  (tex.surface.width, tex.surface.height)

end LibRs

/-- Whether `needle` occurs contiguously at the start of `hay`. -/
def startsList : List Char → List Char → Bool
  | _, [] => true
  | [], _ :: _ => false
  | a :: hay, b :: needle => a == b && startsList hay needle

/-- Whether `needle` occurs contiguously anywhere in `hay`; used to state
whether an error message reports a path. -/
def containsSeq : List Char → List Char → Bool
  | [], needle => needle.isEmpty
  | a :: hay, needle => startsList (a :: hay) needle || containsSeq hay needle

/-- The expansion loop of `from_memory_alpha` in src/texture.rs produces,
at byte positions `4 i .. 4 i + 3`, the pixel `[255, 255, 255, alpha i]`;
out-of-range indices give `none` on both sides. -/
theorem expandAlpha_get (buffer : List Nat) (i : Nat) :
    (TexRs.expandAlpha buffer)[4 * i]? =
        (if i < buffer.length then some 255 else none) ∧
    (TexRs.expandAlpha buffer)[4 * i + 1]? =
        (if i < buffer.length then some 255 else none) ∧
    (TexRs.expandAlpha buffer)[4 * i + 2]? =
        (if i < buffer.length then some 255 else none) ∧
    (TexRs.expandAlpha buffer)[4 * i + 3]? = buffer[i]? := by
  induction buffer generalizing i with
  | nil => simp [TexRs.expandAlpha]
  | cons a t ih =>
    cases i with
    | zero => refine ⟨?_, ?_, ?_, ?_⟩ <;> simp [TexRs.expandAlpha]
    | succ n =>
      obtain ⟨p0, p1, p2, p3⟩ := ih n
      have e0 : 4 * (n + 1) = 4 * n + 1 + 1 + 1 + 1 := by ring
      have e1 : 4 * (n + 1) + 1 = 4 * n + 1 + 1 + 1 + 1 + 1 := by ring
      have e2 : 4 * (n + 1) + 2 = 4 * n + 2 + 1 + 1 + 1 + 1 := by ring
      have e3 : 4 * (n + 1) + 3 = 4 * n + 3 + 1 + 1 + 1 + 1 := by ring
      refine ⟨?_, ?_, ?_, ?_⟩
      · rw [e0]
        simpa only [TexRs.expandAlpha, List.getElem?_cons_succ,
          List.length_cons, Nat.add_lt_add_iff_right] using p0
      · rw [e1]
        simpa only [TexRs.expandAlpha, List.getElem?_cons_succ,
          List.length_cons, Nat.add_lt_add_iff_right] using p1
      · rw [e2]
        simpa only [TexRs.expandAlpha, List.getElem?_cons_succ,
          List.length_cons, Nat.add_lt_add_iff_right] using p2
      · rw [e3]
        simpa only [TexRs.expandAlpha, List.getElem?_cons_succ] using p3

/-- The spec-modelled `alpha_to_rgba8` of the external `texture` crate and
the inline expansion loop of src/texture.rs compute the same bytes. -/
theorem alpha_to_rgba8_eq_expandAlpha (buffer : List Nat) :
    LibRs.alpha_to_rgba8 buffer = TexRs.expandAlpha buffer := by
  induction buffer with
  | nil => rfl
  | cons a t ih => simp [LibRs.alpha_to_rgba8, TexRs.expandAlpha, ih]

/-- Claim C1, counterexample: with `convert_gamma` unset, the creation path
of src/lib.rs still passes the sRGB channel type to the device, not the
linear one. -/
theorem C1_gamma_format_counterexample :
    TextureSettings.new.convert_gamma = false ∧
    (LibRs.from_image ⟨true, true⟩ ⟨1, 1, [9, 9, 9, 9]⟩
        TextureSettings.new).map (fun r => r.2) =
      Except.ok
        [LibRs.Call.create_texture_raw 1 1 1 LibRs.ChannelType.Srgb
           [9, 9, 9, 9],
         LibRs.Call.view_texture_as_shader_resource LibRs.ChannelType.Srgb,
         LibRs.Call.create_sampler true] :=
  ⟨rfl, rfl⟩

/-- Claim C1, amended: `from_image` in src/texture.rs puts `SRGB8_A8` in the
descriptor passed to `create_texture_static` exactly when `convert_gamma`
is set and `RGBA8` otherwise, while the creation path of src/lib.rs passes
the sRGB channel type to the device for every settings value. -/
theorem C1_gamma_format_amended (img : RgbaImage) (s : TextureSettings)
    (u : Bool) :
    (TexRs.from_image_info img s).format =
      (if s.convert_gamma then TexRs.Format.SRGB8_A8
       else TexRs.Format.RGBA8) ∧
    TexRs.from_image ⟨true, u⟩ img s =
      some (⟨TexRs.from_image_info img s⟩,
        TexRs.Call.create_texture_static (TexRs.from_image_info img s)
            img.data ::
          (if s.generate_mipmap then [TexRs.Call.generate_mipmap] else [])) ∧
    LibRs.from_image ⟨true, true⟩ img s =
      Except.ok (⟨⟨u16cast img.width, u16cast img.height, 1⟩⟩,
        [LibRs.Call.create_texture_raw (u16cast img.width)
           (u16cast img.height) 1 LibRs.ChannelType.Srgb img.data,
         LibRs.Call.view_texture_as_shader_resource LibRs.ChannelType.Srgb,
         LibRs.Call.create_sampler s.mag_linear]) :=
  ⟨rfl, rfl, rfl⟩

/-- Claim C2, counterexample: src/texture.rs called with `width = 0` and
`height = 2` clamps only the zero dimension, producing a 1 by 2 texture,
not a 1 by 1 one. -/
theorem C2_degenerate_counterexample :
    (TexRs.from_memory_alpha ⟨true, true⟩ [5, 5] 0 2).map
        (fun r => TexRs.get_size r.1) = some (1, 2) ∧
    (TexRs.from_memory_alpha ⟨true, true⟩ [5, 5] 0 2).map
        (fun r => TexRs.get_size r.1) ≠ some (1, 1) :=
  ⟨rfl, by decide⟩

/-- Claim C2, amended: on a zero requested dimension neither lineage
panics under a working device and neither allocates a zero-sized
dimension for the zero side; src/texture.rs replaces each zero dimension
by 1 individually, keeping the other dimension (truncated to u16), while
src/lib.rs deterministically falls back to the 1 by 1 `empty` texture. -/
theorem C2_degenerate_amended (b : List Nat) (w h : Nat)
    (s : TextureSettings) (u v : Bool) :
    ((TexRs.from_memory_alpha ⟨true, true⟩ b w h).map
        (fun r => TexRs.get_size r.1) =
      some ((if w = 0 then 1 else u16cast w),
            (if h = 0 then 1 else u16cast h))) ∧
    LibRs.from_memory_alpha ⟨u, v⟩ b 0 h s = LibRs.empty ⟨u, v⟩ ∧
    LibRs.from_memory_alpha ⟨u, v⟩ b w 0 s = LibRs.empty ⟨u, v⟩ ∧
    (LibRs.empty ⟨true, true⟩).map (fun r => LibRs.get_size r.1) =
      Except.ok (1, 1) := by
  refine ⟨rfl, rfl, ?_, rfl⟩
  simp [LibRs.from_memory_alpha]

/-- Claim C3, confirmed: for positive dimensions, the data uploaded by
`from_memory_alpha` is the expansion in which the bytes of pixel `i` are
`[255, 255, 255, buffer i]`, in both lineages (the external
`alpha_to_rgba8` of src/lib.rs is spec-modelled and agrees with the
inline loop of src/texture.rs). -/
theorem C3_alpha_expansion (buffer : List Nat) (w h i : Nat)
    (s : TextureSettings) :
    TexRs.from_memory_alpha ⟨true, true⟩ buffer (w + 1) (h + 1) =
      some (⟨TexRs.rgba8Info (u16cast (w + 1)) (u16cast (h + 1))⟩,
        [TexRs.Call.create_texture_rgba8 (u16cast (w + 1))
           (u16cast (h + 1)),
         TexRs.Call.update_texture
           (TexRs.rgba8Info (u16cast (w + 1)) (u16cast (h + 1)))
           (TexRs.expandAlpha buffer)]) ∧
    LibRs.from_memory_alpha ⟨true, true⟩ buffer (w + 1) (h + 1) s =
      LibRs.create ⟨true, true⟩ (LibRs.alpha_to_rgba8 buffer)
        (w + 1, h + 1) s ∧
    LibRs.alpha_to_rgba8 buffer = TexRs.expandAlpha buffer ∧
    (TexRs.expandAlpha buffer)[4 * i]? =
        (if i < buffer.length then some 255 else none) ∧
    (TexRs.expandAlpha buffer)[4 * i + 1]? =
        (if i < buffer.length then some 255 else none) ∧
    (TexRs.expandAlpha buffer)[4 * i + 2]? =
        (if i < buffer.length then some 255 else none) ∧
    (TexRs.expandAlpha buffer)[4 * i + 3]? = buffer[i]? := by
  obtain ⟨p0, p1, p2, p3⟩ := expandAlpha_get buffer i
  exact ⟨rfl, rfl, alpha_to_rgba8_eq_expandAlpha buffer, p0, p1, p2, p3⟩

/-- Claim C4, counterexample: `from_image` in src/lib.rs returns a typed,
recoverable `CombinedError` when the device refuses the allocation, so it
is not infallible and `from_path` is not the only operation with a typed
error. -/
theorem C4_error_design_counterexample :
    LibRs.from_image ⟨false, true⟩ ⟨1, 1, [0, 0, 0, 0]⟩ TextureSettings.new =
      Except.error LibRs.CombinedError.err := rfl

/-- Claim C4, amended: only `from_image` of src/texture.rs returns a
`Texture` directly, treating a device failure as fatal (the panic of an
unwrap, modelled by `none`); in src/lib.rs `from_image` returns a typed
`CombinedError`, and even in src/texture.rs `empty` and
`Rgba8Texture::from_memory` return typed errors, so `from_path` is not
the only operation with a recoverable, typed error. -/
theorem C4_error_design_amended (img : RgbaImage) (s : TextureSettings)
    (u : Bool) (b : List Nat) (size : Nat × Nat) :
    TexRs.from_image ⟨false, u⟩ img s = none ∧
    (TexRs.from_image ⟨true, u⟩ img s).isSome = true ∧
    LibRs.from_image ⟨false, u⟩ img s =
      Except.error LibRs.CombinedError.err ∧
    TexRs.empty ⟨false, u⟩ = Except.error TexRs.GfxTexError.err ∧
    TexRs.from_memory ⟨false, u⟩ b size s =
      Except.error
        (TexRs.TextureError.FactoryError (r"create_texture_static failed")) :=
  ⟨rfl, rfl, rfl, rfl, rfl⟩

/-- Claim C5, counterexample: a decode failure surfaces exactly the message
of the decoder; the attempted path does not occur in the returned error
message. -/
theorem C5_from_path_counterexample :
    TexRs.from_path ⟨true, true⟩
        (fun _ => Except.error (r"unsupported image format"))
        (r"assets/player.png") TextureSettings.new =
      some (Except.error (r"unsupported image format")) ∧
    containsSeq (r"unsupported image format").toList
        (r"assets/player.png").toList = false :=
  ⟨rfl, by decide⟩

/-- Claim C5, amended: on a failing decode, `from_path` in both lineages
returns an error (never a Texture) whose message is exactly the message
of the underlying decoder, with the attempted path not added to it. -/
theorem C5_from_path_amended (path msg : String) (s : TextureSettings)
    (f : TexRs.Factory) (g : LibRs.Factory) (flip : LibRs.Flip) :
    TexRs.from_path f (fun _ => Except.error msg) path s =
      some (Except.error msg) ∧
    LibRs.from_path g (fun _ => Except.error msg) path flip s =
      Except.error msg :=
  ⟨rfl, rfl⟩

/-- Claim C6, counterexample: a valid 65536 by 1 RGBA image (262144 bytes)
yields a texture whose `get_size` is `(0, 1)` after the u16 truncation,
not `(65536, 1)`. -/
theorem C6_get_size_counterexample :
    ((TexRs.from_image ⟨true, true⟩ ⟨65536, 1, List.replicate 262144 0⟩
        TextureSettings.new).map (fun r => TexRs.get_size r.1) =
      some (0, 1)) ∧
    ((TexRs.from_image ⟨true, true⟩ ⟨65536, 1, List.replicate 262144 0⟩
        TextureSettings.new).map (fun r => TexRs.get_size r.1) ≠
      some (65536, 1)) :=
  ⟨rfl, by decide⟩

/-- Claim C6, amended: `from_image` followed by `get_size` returns
`(W % 65536, H % 65536)` in both lineages -- exactly `(W, H)` whenever
both dimensions are below 65536 -- and `get_size` reads the metadata
stored in the GPU handle itself. -/
theorem C6_get_size_amended (img : RgbaImage) (s : TextureSettings)
    (u : Bool) :
    ((TexRs.from_image ⟨true, u⟩ img s).map
        (fun r => TexRs.get_size r.1) =
      some (img.width % 65536, img.height % 65536)) ∧
    ((LibRs.from_image ⟨true, true⟩ img s).map
        (fun r => LibRs.get_size r.1) =
      Except.ok (img.width % 65536, img.height % 65536)) :=
  ⟨rfl, rfl⟩

/-- Claim C7, counterexample: with `generate_mipmap` set, the creation path
of src/lib.rs issues no mipmap-generation call at all. -/
theorem C7_mipmap_counterexample :
    ({ TextureSettings.new with
        generate_mipmap := true } : TextureSettings).generate_mipmap =
      true ∧
    (LibRs.from_image ⟨true, true⟩ ⟨1, 1, [1, 2, 3, 4]⟩
        { TextureSettings.new with generate_mipmap := true }).map
      (fun r => r.2.filter LibRs.isMipmapCall) = Except.ok [] :=
  ⟨rfl, rfl⟩

/-- Claim C7, amended: `from_image` in src/texture.rs issues the
mipmap-generation call exactly once, after the creating upload, when
`generate_mipmap` is set, and never otherwise; the creation path of
src/lib.rs never issues it, for every settings value. -/
theorem C7_mipmap_amended (img : RgbaImage) (s : TextureSettings)
    (u : Bool) :
    (TexRs.from_image ⟨true, u⟩ img s).map (fun r => r.2) =
      some (TexRs.Call.create_texture_static
          (TexRs.from_image_info img s) img.data ::
        (if s.generate_mipmap then [TexRs.Call.generate_mipmap] else [])) ∧
    ((TexRs.from_image ⟨true, u⟩ img s).map
        (fun r => r.2.filter TexRs.isMipmapCall) =
      some (if s.generate_mipmap then [TexRs.Call.generate_mipmap]
            else [])) ∧
    ((LibRs.from_image ⟨true, true⟩ img s).map
        (fun r => r.2.filter LibRs.isMipmapCall) = Except.ok []) := by
  rcases s with ⟨f1, f2, f3, f4, f5⟩
  cases f4 <;> exact ⟨rfl, rfl, rfl⟩

/-- Claim C8, confirmed: updating with an image of the same extent as the
existing allocation leaves the texture value (hence `get_size` and the
stored format descriptor) unchanged and issues only a content-rewriting
`update_texture` call, in both lineages. -/
theorem C8_update_preserves (u : Bool) (w h d l : Nat)
    (fmt : TexRs.Format) (data : List Nat) (sw sh lv : Nat) :
    TexRs.update ⟨u, true⟩ ⟨⟨w, h, d, l, fmt⟩⟩ ⟨w, h, data⟩ =
      some (⟨⟨w, h, d, l, fmt⟩⟩,
        [TexRs.Call.update_texture ⟨w, h, d, l, fmt⟩ data]) ∧
    TexRs.get_size ⟨⟨w, h, d, l, fmt⟩⟩ = (w, h) ∧
    LibRs.update ⟨true⟩ ⟨⟨sw, sh, lv⟩⟩ ⟨sw, sh, data⟩ =
      Except.ok (⟨⟨sw, sh, lv⟩⟩,
        [LibRs.Call.update_texture 0 0 (u16cast sw) (u16cast sh)
          LibRs.ChannelType.Unorm data]) ∧
    LibRs.get_size ⟨⟨sw, sh, lv⟩⟩ = (sw, sh) :=
  ⟨rfl, rfl, rfl, rfl⟩

/-- Claim C9, confirmed: on a device accepting the calls, `empty` in both
lineages allocates exactly a 1 by 1 texture whose single uploaded pixel
is `[0, 0, 0, 0]`. -/
theorem C9_empty_texture :
    TexRs.empty ⟨true, true⟩ =
      Except.ok (⟨TexRs.rgba8Info 1 1⟩,
        [TexRs.Call.create_texture_rgba8 1 1,
         TexRs.Call.update_texture (TexRs.rgba8Info 1 1) [0, 0, 0, 0]]) ∧
    TexRs.get_size ⟨TexRs.rgba8Info 1 1⟩ = (1, 1) ∧
    LibRs.empty ⟨true, true⟩ =
      Except.ok (⟨⟨1, 1, 1⟩⟩,
        [LibRs.Call.create_texture_raw 1 1 1 LibRs.ChannelType.Srgb
           [0, 0, 0, 0],
         LibRs.Call.view_texture_as_shader_resource LibRs.ChannelType.Srgb,
         LibRs.Call.create_sampler true]) ∧
    LibRs.get_size ⟨⟨1, 1, 1⟩⟩ = (1, 1) :=
  ⟨rfl, rfl, rfl, rfl⟩

/-- Claim C10, counterexample: `from_memory_alpha` in src/texture.rs with a
requested width of 0 uses dimension 1, not `0 % 65536 = 0`, so not every
path maps a requested dimension `d` to `d mod 65536`. -/
theorem C10_u16_counterexample :
    ((TexRs.from_memory_alpha ⟨true, true⟩ [] 0 7).map
        (fun r => TexRs.get_size r.1) = some (1, 7)) ∧
    ((TexRs.from_memory_alpha ⟨true, true⟩ [] 0 7).map
        (fun r => TexRs.get_size r.1) ≠ some (0 % 65536, 7 % 65536)) :=
  ⟨rfl, by decide⟩

/-- Claim C10, amended: the paths that build a descriptor from the
requested size (`from_image` and `Rgba8Texture::from_memory` in
src/texture.rs, `create` and the encoder update in src/lib.rs) truncate
each dimension to `d % 65536`, silently wrapping at 65536; the
`from_memory_alpha` of src/texture.rs first replaces a zero dimension by
1 (nonzero dimensions still wrap); `Rgba8Texture::update` ignores the
requested size entirely and reuses the stored extent of the handle. -/
theorem C10_u16_amended (size : Nat × Nat) (img : RgbaImage)
    (s : TextureSettings) (b : List Nat) (w h : Nat)
    (t : LibRs.Texture) (tex : TexRs.Texture) :
    (TexRs.from_image_info img s).width = img.width % 65536 ∧
    (TexRs.from_image_info img s).height = img.height % 65536 ∧
    (TexRs.from_memory_info size s).width = size.1 % 65536 ∧
    (TexRs.from_memory_info size s).height = size.2 % 65536 ∧
    ((LibRs.create ⟨true, true⟩ b size s).map
        (fun r => LibRs.get_size r.1) =
      Except.ok (size.1 % 65536, size.2 % 65536)) ∧
    LibRs.update_texture ⟨true⟩ t b (0, 0) (w, h) =
      Except.ok (t,
        [LibRs.Call.update_texture 0 0 (w % 65536) (h % 65536)
          LibRs.ChannelType.Unorm b]) ∧
    ((TexRs.from_memory_alpha ⟨true, true⟩ b w h).map
        (fun r => TexRs.get_size r.1) =
      some ((if w = 0 then 1 else w % 65536),
            (if h = 0 then 1 else h % 65536))) ∧
    TexRs.rgba8_update ⟨true, true⟩ tex b (w, h) =
      Except.ok (tex, [TexRs.Call.update_texture tex.handle b]) :=
  ⟨rfl, rfl, rfl, rfl, rfl, rfl, rfl, rfl⟩
